import Mathlib

/-!
Verification of the pypaymob core: shallow embedding of the webhook HMAC
authenticator (src/paymob/webhook.py), the token manager
(src/paymob/auth_utility.py) and the credential cache (src/paymob/cache.py),
together with theorems settling the specification claims about them.

Modelling conventions:
  - Python values flowing through the callback payloads are embedded as the
    inductive type JVal (None, bool, int, str, dict).  Python dicts are
    embedded as association lists with first-match lookup (Python dict keys
    are unique, so first-match agrees with dict semantics).
  - Python exceptions are embedded as the PyError type; a Python function
    that may raise is embedded as a function into Except PyError.
  - The SHA-512 HMAC primitive (the hmac/hashlib standard library, external
    to this repository) is embedded as an explicit function parameter
    hmacHex : String -> String -> String mapping (key, message) to the hex
    digest; the claims proved here are independent of its internals.
  - Wall-clock time (time.time()) is passed explicitly as a Nat parameter.
-/

/-- Embedded Python exception values (paymob/exceptions.py plus builtins). -/
inductive PyError where
  | keyError (k : String)
  | attributeError
  | valueError (msg : String)
  | validationError (msg : String)
  | apiException (msg : String)
  | authenticationError (msg : String)
  | configurationError (msg : String)
deriving DecidableEq, Repr

mutual

/-- Embedded Python value as it appears in a decoded callback payload. -/
inductive JVal where
  | jnull : JVal
  | jbool : Bool → JVal
  | jnum : Int → JVal
  | jstr : String → JVal
  | jobj : JDict → JVal

/-- Embedded Python dict: an association list of string keys to values. -/
inductive JDict where
  | nil : JDict
  | cons : String → JVal → JDict → JDict

end

/-- First-match association lookup, the embedding of Python dict indexing. -/
def JDict.lookup : JDict → String → Option JVal
  | .nil, _ => none
  | .cons k' v rest, k => if k' = k then some v else rest.lookup k

/-- Whether the embedded dict is empty (Python empty dicts are falsy). -/
def JDict.isNil : JDict → Bool
  | .nil => true
  | .cons _ _ _ => false

/-- Python truthiness for embedded values. -/
def JVal.truthy : JVal → Bool
  | .jnull => false
  | .jbool b => b
  | .jnum n => n != 0
  | .jstr s => s != ""
  | .jobj d => !d.isNil

mutual

/-- Python repr of an embedded value (str quoting simplified; the claims
never render a string value through repr). -/
def pyRepr : JVal → String
  | .jnull => "None"
  | .jbool true => "True"
  | .jbool false => "False"
  | .jnum n => toString n
  | .jstr s => "'" ++ s ++ "'"
  | .jobj d => "\x7b" ++ pyReprFields d ++ "\x7d"

/-- Python repr of the entries of an embedded dict. -/
def pyReprFields : JDict → String
  | .nil => ""
  | .cons k v .nil => "'" ++ k ++ "': " ++ pyRepr v
  | .cons k v (.cons k2 v2 rest) =>
      "'" ++ k ++ "': " ++ pyRepr v ++ ", " ++ pyReprFields (.cons k2 v2 rest)

end

/-- Python str() of an embedded value. -/
def pyStr : JVal → String
  | .jstr s => s
  | .jnull => "None"
  | .jbool true => "True"
  | .jbool false => "False"
  | .jnum n => toString n
  | .jobj d => pyRepr (.jobj d)

/-- Embedding of the Python expression value.get(key, default): defined on
dicts, an AttributeError on any other value. -/
def dictGet (v : JVal) (k : String) (default : JVal) : Except PyError JVal :=
  match v with
  | .jobj d => .ok ((d.lookup k).getD default)
  | _ => .error .attributeError

/-- Helper for splitDot, walking the character list. -/
def splitDotAux : List Char → List Char → List (List Char)
  | [], acc => [acc.reverse]
  | c :: cs, acc =>
      if c = '.' then acc.reverse :: splitDotAux cs []
      else splitDotAux cs (c :: acc)

/-- Embedding of the Python expression field.split to pieces on a dot. -/
def splitDot (s : String) : List String :=
  (splitDotAux s.data []).map String.mk

/-- Embedding of the Python membership test of a dot inside field. -/
def containsDot (s : String) : Bool :=
  s.data.any (fun c => c = '.')

/-- Embedding of Python str.lower for the ASCII type tags this code
dispatches on. -/
def pyLower (s : String) : String :=
  String.mk (s.data.map Char.toLower)

/-- Rendering of one looked-up value inside the canonicalization loops of
webhook.py lines 138 to 144 and 171 to 177: the string form is compared
against the literals True, False and None. -/
def render (v : JVal) : String :=
  let s := pyStr v
  if s = "True" then "true"
  else if s = "False" then "false"
  else if s = "None" then "null"
  else s

/-- The fixed transaction field list of webhook.py lines 106 to 127. -/
def transactionFields : List String :=
  ["amount_cents", "created_at", "currency", "error_occured",
   "has_parent_transaction", "id", "integration_id", "is_3d_secure",
   "is_auth", "is_capture", "is_refunded", "is_standalone_payment",
   "is_voided", "order.id", "owner", "pending", "source_data.pan",
   "source_data.sub_type", "source_data.type", "success"]

/-- The fixed token field list of webhook.py lines 151 to 160. -/
def tokenFields : List String :=
  ["card_subtype", "created_at", "email", "id", "masked_pan",
   "merchant_id", "order_id", "token"]

/-- Field lookup of the canonicalization loops (webhook.py lines 130 to
136): a dotted field does a two-level get with defaults empty dict then
empty string, a plain field a one-level get with default empty string. -/
def lookupField (obj : JVal) (field : String) : Except PyError JVal :=
  if containsDot field then
    match splitDot field with
    | [key1, key2] =>
        match dictGet obj key1 (.jobj .nil) with
        | .error e => .error e
        | .ok v1 => dictGet v1 key2 (.jstr "")
    | _ => .error (.valueError "unpack")
  else
    dictGet obj field (.jstr "")

/-- One loop iteration of the canonicalization: look the field up, then
render it. -/
def renderField (obj : JVal) (field : String) : Except PyError String :=
  match lookupField obj field with
  | .error e => .error e
  | .ok v => .ok (render v)

/-- The canonicalization loop over a field list, collecting the rendered
values in order; the first raised lookup error aborts the loop as in
Python. -/
def concat_fields (obj : JVal) : List String → Except PyError (List String)
  | [] => .ok []
  | f :: fs =>
      match renderField obj f with
      | .error e => .error e
      | .ok r =>
          match concat_fields obj fs with
          | .error e => .error e
          | .ok rs => .ok (r :: rs)

/-- Embedding of PaymobHmacAuth._concatenate_transaction_callback
(webhook.py lines 103 to 147): index the payload at obj (a KeyError when
absent), render the twenty transaction fields in order and join them with
no separator. -/
def concatenate_transaction_callback (callback_data : JDict) :
    Except PyError String :=
  match callback_data.lookup "obj" with
  | none => .error (.keyError "obj")
  | some obj =>
      match concat_fields obj transactionFields with
      | .error e => .error e
      | .ok rs => .ok (String.join rs)

/-- Embedding of PaymobHmacAuth._concatenate_token_callback (webhook.py
lines 149 to 180), identical to the transaction case over the eight token
fields. -/
def concatenate_token_callback (callback_data : JDict) :
    Except PyError String :=
  match callback_data.lookup "obj" with
  | none => .error (.keyError "obj")
  | some obj =>
      match concat_fields obj tokenFields with
      | .error e => .error e
      | .ok rs => .ok (String.join rs)

/-- Embedding of PaymobHmacAuth._concatenate_subscription_callback
(webhook.py lines 182 to 193): both looked-up values must be truthy, else
a ValidationError is raised; otherwise the canonical string is the first
value, the literal for, and the second value. -/
def concatenate_subscription_callback (callback_data : JDict) :
    Except PyError String :=
  let str1 := (callback_data.lookup "trigger_type").getD (.jstr "")
  match dictGet ((callback_data.lookup "subscription_data").getD (.jobj .nil))
      "id" (.jstr "") with
  | .error e => .error e
  | .ok str2 =>
      if !str1.truthy || !str2.truthy then
        .error (.validationError
          "Cannot authorize callback: Not a valid subscription callback")
      else
        .ok (pyStr str1 ++ "for" ++ pyStr str2)

/-- Embedding of PaymobHmacAuth._get_type_of_callback (webhook.py lines
195 to 205): a truthy type entry is returned as is, else a truthy
subscription_data entry classifies as subscription, else undefined. -/
def get_type_of_callback (callback_data : JDict) : JVal :=
  if ((callback_data.lookup "type").getD .jnull).truthy then
    (callback_data.lookup "type").getD .jnull
  else if ((callback_data.lookup "subscription_data").getD .jnull).truthy then
    .jstr "subscription"
  else
    .jstr "undefined"

/-- Embedding of PaymobHmacAuth._concatenate (webhook.py lines 68 to 101):
lower-case the classified type (an AttributeError when the type entry is
not a string, as str.lower would raise) and dispatch to the per-type
canonicalizer; undefined and unknown types yield the empty string with
type undefined. -/
def concatenate (callback_data : JDict) : Except PyError (String × String) :=
  match get_type_of_callback callback_data with
  | .jstr ct =>
      let callback_type := pyLower ct
      if callback_type = "subscription" then
        match concatenate_subscription_callback callback_data with
        | .error e => .error e
        | .ok s => .ok (s, callback_type)
      else if callback_type = "transaction" then
        match concatenate_transaction_callback callback_data with
        | .error e => .error e
        | .ok s => .ok (s, callback_type)
      else if callback_type = "token" then
        match concatenate_token_callback callback_data with
        | .error e => .error e
        | .ok s => .ok (s, callback_type)
      else if callback_type = "undefined" then
        .ok ("", callback_type)
      else
        .ok ("", "undefined")
  | _ => .error .attributeError

/-- Python equality between a payload value and the computed digest string
(webhook.py line 60): only a str value can compare equal to a str. -/
def jvalEqStr (v : JVal) (s : String) : Bool :=
  match v with
  | .jstr t => t == s
  | _ => false

/-- Embedding of PaymobHmacAuth._get_hmac_sk (webhook.py lines 207 to 212)
with the module-level secret key made an explicit parameter: a falsy key
raises APIException. -/
def get_hmac_sk (sk : String) : Except PyError String :=
  if sk = "" then .error (.apiException "Paymob HMAC secret key not configured")
  else .ok sk

/-- Signature extraction of authorize_hmac (webhook.py lines 35 to 38): a
truthy hmac entry of the body wins, else the hmac query parameter of a
truthy query dict, else Python None. -/
def extract_req_hmac (callback_data : JDict) (query_params : Option JDict) :
    JVal :=
  let fromQp : JVal :=
    match query_params with
    | some q => if !q.isNil then (q.lookup "hmac").getD .jnull else .jnull
    | none => .jnull
  let bodyHmac := (callback_data.lookup "hmac").getD .jnull
  if bodyHmac.truthy then bodyHmac else fromQp

/-- Embedding of PaymobHmacAuth.authorize_hmac (webhook.py lines 17 to 66),
parameterized by the HMAC-SHA512 hex-digest primitive hmacHex and the
module-level secret key sk. Python returning None becomes ok none, an
uncaught exception becomes error. -/
def authorize_hmac (hmacHex : String → String → String) (sk : String)
    (callback_data : JDict) (query_params : Option JDict) :
    Except PyError (Option String) :=
  let req_hmac := extract_req_hmac callback_data query_params
  if !req_hmac.truthy then .ok none
  else
    match get_hmac_sk sk with
    | .error e => .error e
    | .ok hmac_sk =>
        match concatenate callback_data with
        | .error e => .error e
        | .ok (concatenated_string, res_type) =>
            if concatenated_string = "" ∨ res_type = "undefined" then .ok none
            else
              let calculated := hmacHex hmac_sk concatenated_string
              if jvalEqStr req_hmac calculated then .ok (some res_type)
              else .ok none

/-- Replacement of one character of a string, used to state the
single-character signature flip of the round-trip claim. -/
def setCharAt (s : String) (i : Nat) (c : Char) : String :=
  String.mk (s.data.set i c)

/-- A concrete stand-in keyed-hash function used only by witnesses. -/
def demoHmacHex (key msg : String) : String :=
  key ++ "/" ++ msg

/-- Outcome of one HTTP call of the token request (auth_utility.py lines
41 to 46), abstracted over the transport: success carries the token field
of the decoded JSON response (none when absent), failure carries the text
of the raised transport exception, which also covers non-2xx statuses and
body decode errors since all land in the same except clause. -/
inductive TransportResult where
  | success (token_field : Option String)
  | failure (msg : String)
deriving DecidableEq, Repr

/-- Embedding of PaymobAuth._request_token (auth_utility.py lines 36 to
56): a falsy token field raises AuthenticationError inside the try block,
so it is re-wrapped by the except clause exactly like a transport failure;
every error surfaces as AuthenticationError with the wrapped text. -/
def request_token (tr : TransportResult) : Except PyError String :=
  match tr with
  | .failure msg =>
      .error (.authenticationError ("Token request failed: " ++ msg))
  | .success none =>
      .error (.authenticationError
        "Token request failed: No token received from Paymob API")
  | .success (some t) =>
      if t = "" then
        .error (.authenticationError
          "Token request failed: No token received from Paymob API")
      else .ok t

/-- The refresh tracking state of PaymobAuth (auth_utility.py lines 32 and
33): the count of refreshes and the hour bucket of the last one. -/
structure RefreshState where
  refresh_attempts : Nat
  last_refresh_hour : Int
deriving DecidableEq, Repr

/-- The state PaymobAuth.__init__ starts with: zero attempts, hour minus
one. -/
def initRefreshState : RefreshState :=
  RefreshState.mk 0 (-1)

/-- Embedding of PaymobAuth._track_refresh_attempts (auth_utility.py lines
74 to 87): reset the count when the wall-clock hour bucket changed, then
increment; the returned Bool is whether the high-rate warning is logged. -/
def track_refresh_attempts (now : Nat) (rs : RefreshState) :
    RefreshState × Bool :=
  let current_hour : Int := ((now / 3600 : Nat) : Int)
  let rs1 : RefreshState :=
    if current_hour != rs.last_refresh_hour then
      RefreshState.mk 0 current_hour
    else rs
  let rs2 : RefreshState :=
    RefreshState.mk (rs1.refresh_attempts + 1) rs1.last_refresh_hour
  (rs2, decide (3 < rs2.refresh_attempts))

/-- Warning flags produced by a sequence of tracked refreshes at the given
wall-clock times, starting from the given state. -/
def trackWarnSeq (rs : RefreshState) : List Nat → List Bool
  | [] => []
  | t :: ts =>
      let r := track_refresh_attempts t rs
      r.2 :: trackWarnSeq r.1 ts

/-- A pluggable cache backend (cache.py lines 9 to 22) over a state type
and an arbitrary exception type: each operation returns its outcome (ok or
a raised exception) together with the backend state it leaves behind.  The
wall-clock time is passed explicitly where the backend may consult it. -/
structure CacheBackend (σ ε : Type) where
  get : Nat → σ → String → (Except ε (Option String)) × σ
  set : Nat → σ → String → String → Nat → (Except ε Unit) × σ
  delete : σ → String → (Except ε Unit) × σ

/-- The fixed cache key of PaymobAuth (auth_utility.py line 20). -/
def CACHE_KEY : String := "paymob:auth_token"

/-- Embedding of PaymobAuth._get_cached_token (auth_utility.py lines 58 to
64): a raised backend exception is caught and becomes a miss. -/
def get_cached_token {σ ε : Type} (B : CacheBackend σ ε) (now : Nat)
    (st : σ) : Option String × σ :=
  match B.get now st CACHE_KEY with
  | (.error _, st') => (none, st')
  | (.ok v, st') => (v, st')

/-- Embedding of PaymobAuth._cache_token (auth_utility.py lines 66 to 72):
a raised backend exception is caught and logged, never re-raised. -/
def cache_token {σ ε : Type} (B : CacheBackend σ ε) (now : Nat) (st : σ)
    (token : String) (token_ttl : Nat) : σ :=
  (B.set now st CACHE_KEY token token_ttl).2

/-- The refresh half of PaymobAuth.get_token (auth_utility.py lines 109 to
119): track the attempt, request a token, cache it on success.  The last
component counts the transport calls issued. -/
def refresh_token_path {σ ε : Type} (B : CacheBackend σ ε) (now : Nat)
    (tr : TransportResult) (token_ttl : Nat) (st : σ) (rs : RefreshState) :
    Except PyError String × σ × RefreshState × Nat :=
  let rs' := (track_refresh_attempts now rs).1
  match request_token tr with
  | .error e => (.error e, st, rs', 1)
  | .ok token => (.ok token, cache_token B now st token token_ttl, rs', 1)

/-- Embedding of PaymobAuth.get_token (auth_utility.py lines 89 to 119):
unless force_refresh, a truthy cached token is returned with no transport
call; otherwise the refresh path runs.  The last component counts the
transport calls issued. -/
def get_token {σ ε : Type} (B : CacheBackend σ ε) (now : Nat)
    (force_refresh : Bool) (tr : TransportResult) (token_ttl : Nat)
    (st : σ) (rs : RefreshState) :
    Except PyError String × σ × RefreshState × Nat :=
  match (if force_refresh then (none, st) else get_cached_token B now st) with
  | (some cached_token, st1) =>
      if cached_token ≠ "" then (.ok cached_token, st1, rs, 0)
      else refresh_token_path B now tr token_ttl st1 rs
  | (none, st1) => refresh_token_path B now tr token_ttl st1 rs

/-- Embedding of PaymobAuth.invalidate_token (auth_utility.py lines 121 to
127): best effort delete, a raised backend exception is caught and the
method returns normally. -/
def invalidate_token {σ ε : Type} (B : CacheBackend σ ε) (st : σ) :
    Except PyError Unit × σ :=
  match B.delete st CACHE_KEY with
  | (.error _, st') => (.ok (), st')
  | (.ok _, st') => (.ok (), st')

/-- The state of MemoryCache (cache.py line 29): key to (value,
absolute-expiry) associations. -/
abbrev MemCache := List (String × String × Nat)

/-- Removal of a key from the MemoryCache store; dict keys are unique so
filtering agrees with Python del and pop. -/
def eraseKey (key : String) (st : MemCache) : MemCache :=
  st.filter (fun e => e.1 != key)

/-- Embedding of MemoryCache.get (cache.py lines 31 to 41): a missing key
is a miss, a key past its expiry is deleted and is a miss, otherwise the
stored value is returned. -/
def memory_cache_get (now : Nat) (st : MemCache) (key : String) :
    Option String × MemCache :=
  match st.lookup key with
  | none => (none, st)
  | some (value, expires_at) =>
      if expires_at < now then (none, eraseKey key st)
      else (some value, st)

/-- Embedding of MemoryCache.set (cache.py lines 43 to 46): store the
value under the key with expiry now plus ttl, overwriting. -/
def memory_cache_set (now : Nat) (st : MemCache) (key value : String)
    (ttl : Nat) : MemCache :=
  (key, value, now + ttl) :: eraseKey key st

/-- Embedding of MemoryCache.delete (cache.py lines 48 to 50). -/
def memory_cache_delete (st : MemCache) (key : String) : MemCache :=
  eraseKey key st

/-- MemoryCache packaged as a CacheBackend; none of its operations can
raise, so the exception type is Empty. -/
def memoryBackend : CacheBackend MemCache Empty :=
  CacheBackend.mk
    (fun now st key =>
      let r := memory_cache_get now st key
      (.ok r.1, r.2))
    (fun now st key value ttl => (.ok (), memory_cache_set now st key value ttl))
    (fun st key => (.ok (), memory_cache_delete st key))

/-- A backend every operation of which raises, used by witnesses of the
cache-error tolerance claims. -/
def failBackend : CacheBackend Unit String :=
  CacheBackend.mk
    (fun _ _ _ => (.error "backend down", ()))
    (fun _ _ _ _ _ => (.error "backend down", ()))
    (fun _ _ => (.error "backend down", ()))

/-- A valid subscription payload used by concrete witnesses. -/
def exSub : JDict :=
  .cons "trigger_type" (.jstr "renewed")
    (.cons "subscription_data" (.jobj (.cons "id" (.jnum 5) .nil)) .nil)

/-- A transaction payload whose currency field is the string True, used to
exhibit the stringly-typed rendering quirk. -/
def exTxQuirk : JDict :=
  .cons "type" (.jstr "transaction")
    (.cons "obj" (.jobj (.cons "currency" (.jstr "True") .nil)) .nil)

/-- A transaction payload with an empty obj dict: every field of the fixed
list is absent. -/
def exTxEmpty : JDict :=
  .cons "type" (.jstr "transaction") (.cons "obj" (.jobj .nil) .nil)

/-- A subscription payload whose trigger_type is present but empty. -/
def exSubFalsy : JDict :=
  .cons "trigger_type" (.jstr "")
    (.cons "subscription_data" (.jobj (.cons "id" (.jnum 5) .nil)) .nil)

theorem JDict.lookup_cons_of_ne (k' k : String) (v : JVal) (d : JDict)
    (h : k' ≠ k) : (JDict.cons k' v d).lookup k = d.lookup k := by
  simp [JDict.lookup, h]

theorem get_type_cons_hmac (v : JVal) (d : JDict) :
    get_type_of_callback (.cons "hmac" v d) = get_type_of_callback d := by
  unfold get_type_of_callback
  rw [JDict.lookup_cons_of_ne _ _ _ _ (by decide),
      JDict.lookup_cons_of_ne _ _ _ _ (by decide)]

theorem concatenate_transaction_cons_hmac (v : JVal) (d : JDict) :
    concatenate_transaction_callback (.cons "hmac" v d)
      = concatenate_transaction_callback d := by
  unfold concatenate_transaction_callback
  rw [JDict.lookup_cons_of_ne _ _ _ _ (by decide)]

theorem concatenate_token_cons_hmac (v : JVal) (d : JDict) :
    concatenate_token_callback (.cons "hmac" v d)
      = concatenate_token_callback d := by
  unfold concatenate_token_callback
  rw [JDict.lookup_cons_of_ne _ _ _ _ (by decide)]

theorem concatenate_subscription_cons_hmac (v : JVal) (d : JDict) :
    concatenate_subscription_callback (.cons "hmac" v d)
      = concatenate_subscription_callback d := by
  unfold concatenate_subscription_callback
  rw [JDict.lookup_cons_of_ne _ _ _ _ (by decide),
      JDict.lookup_cons_of_ne _ _ _ _ (by decide)]

theorem concatenate_cons_hmac (v : JVal) (d : JDict) :
    concatenate (.cons "hmac" v d) = concatenate d := by
  unfold concatenate
  rw [get_type_cons_hmac]
  cases get_type_of_callback d with
  | jstr ct =>
      simp only [concatenate_subscription_cons_hmac,
        concatenate_transaction_cons_hmac, concatenate_token_cons_hmac]
  | jnull => rfl
  | jbool b => rfl
  | jnum n => rfl
  | jobj o => rfl

theorem extract_of_body (d : JDict) (qp : Option JDict) (sig : String)
    (h : d.lookup "hmac" = some (.jstr sig)) (hs : sig ≠ "") :
    extract_req_hmac d qp = .jstr sig := by
  unfold extract_req_hmac
  rw [h]
  simp [JVal.truthy, bne_iff_ne, hs]

theorem setCharAt_ne_empty (s : String) (i : Nat) (c : Char)
    (hi : i < s.data.length) : setCharAt s i c ≠ "" := by
  intro h
  have hd : s.data.set i c = [] := congrArg String.data h
  have hlen : (s.data.set i c).length = s.data.length := List.length_set s.data i c
  rw [hd] at hlen
  rw [← hlen] at hi
  simp at hi

theorem setCharAt_ne (s : String) (i : Nat) (c : Char)
    (hi : i < s.data.length) (hc : c ≠ s.data.get ⟨i, hi⟩) :
    setCharAt s i c ≠ s := by
  intro h
  have hd : s.data.set i c = s.data := congrArg String.data h
  apply hc
  have h1 : (s.data.set i c)[i]? = some c := List.getElem?_set_self hi
  rw [hd] at h1
  have h2 : s.data[i]? = some (s.data.get ⟨i, hi⟩) := by
    simp [List.getElem?_eq_getElem hi, List.get_eq_getElem]
  rw [h1] at h2
  exact Option.some.inj h2

theorem concatenate_ty_of_ne_empty (d : JDict) (cs ty : String)
    (h : concatenate d = .ok (cs, ty)) (hcs : cs ≠ "") :
    ty ≠ "undefined" := by
  intro hty
  subst hty
  apply hcs
  cases hgt : get_type_of_callback d
  case jnull => simp [concatenate, hgt] at h
  case jbool b => simp [concatenate, hgt] at h
  case jnum n => simp [concatenate, hgt] at h
  case jobj o => simp [concatenate, hgt] at h
  case jstr ct =>
    by_cases h1 : pyLower ct = "subscription"
    · cases hm : concatenate_subscription_callback d <;>
        simp [concatenate, hgt, h1, hm] at h
    · by_cases h2 : pyLower ct = "transaction"
      · cases hm : concatenate_transaction_callback d <;>
          simp [concatenate, hgt, h1, h2, hm] at h
      · by_cases h3 : pyLower ct = "token"
        · cases hm : concatenate_token_callback d <;>
            simp [concatenate, hgt, h1, h2, h3, hm] at h
        · by_cases h4 : pyLower ct = "undefined"
          · simp [concatenate, hgt, h1, h2, h3, h4] at h
            exact h.symm
          · simp [concatenate, hgt, h1, h2, h3, h4] at h
            exact h.symm

/-- Claim C1 (corrected): for a configured secret key and a payload whose
canonicalization yields a nonempty canonical string - the proviso forced
by the counterexample, since an empty canonical string is rejected at
webhook.py line 50 even when correctly signed - presenting the hex keyed
hash of the canonical string as the signature makes authorize_hmac return
the classified type, and presenting the same signature with any single
character changed makes it return no verified type. -/
theorem claim_C1_roundtrip (hmacHex : String → String → String)
    (sk : String) (d : JDict) (qp : Option JDict) (cs ty sig : String)
    (i : Nat) (c : Char)
    (hsk : sk ≠ "")
    (hconc : concatenate d = .ok (cs, ty))
    (hcs : cs ≠ "")
    (hsig : sig = hmacHex sk cs) (hne : sig ≠ "")
    (hi : i < sig.data.length)
    (hc : c ≠ sig.data.get ⟨i, hi⟩) :
    authorize_hmac hmacHex sk (JDict.cons "hmac" (.jstr sig) d) qp
        = .ok (some ty)
    ∧ authorize_hmac hmacHex sk
        (JDict.cons "hmac" (.jstr (setCharAt sig i c)) d) qp = .ok none := by
  have hty : ty ≠ "undefined" := concatenate_ty_of_ne_empty d cs ty hconc hcs
  have hflipne : setCharAt sig i c ≠ sig := setCharAt_ne sig i c hi hc
  have hflipnem : setCharAt sig i c ≠ "" := setCharAt_ne_empty sig i c hi
  constructor
  · have hext := extract_of_body (JDict.cons "hmac" (.jstr sig) d) qp sig
      (by simp [JDict.lookup]) hne
    unfold authorize_hmac
    rw [hext, concatenate_cons_hmac, hconc]
    simp [JVal.truthy, bne_iff_ne, hne, get_hmac_sk, hsk, hcs, hty,
      jvalEqStr, ← hsig]
  · have hext := extract_of_body
      (JDict.cons "hmac" (.jstr (setCharAt sig i c)) d) qp _
      (by simp [JDict.lookup]) hflipnem
    unfold authorize_hmac
    rw [hext, concatenate_cons_hmac, hconc]
    simp [JVal.truthy, bne_iff_ne, hflipnem, get_hmac_sk, hsk, hcs, hty,
      jvalEqStr, ← hsig, hflipne]

/-- Concrete instance of the round-trip claim: a valid subscription
payload, the matching signature, and the same signature with its first
character flipped. -/
theorem claim_C1_roundtrip_witness :
    authorize_hmac demoHmacHex "k"
        (JDict.cons "hmac" (.jstr "k/renewedfor5") exSub) none
      = .ok (some "subscription")
    ∧ authorize_hmac demoHmacHex "k"
        (JDict.cons "hmac" (.jstr (setCharAt "k/renewedfor5" 0 'z')) exSub)
        none = .ok none :=
  claim_C1_roundtrip demoHmacHex "k" exSub none "renewedfor5" "subscription"
    "k/renewedfor5" 0 'z' (by decide) (by rfl) (by decide)
    (by rfl) (by decide) (by decide) (by decide)

/-- Claim C1 counterexample: a transaction payload with an empty obj dict
canonicalizes to the empty string with classified type transaction;
presenting exactly the keyed hash of that empty canonical string satisfies
the claim as frozen, yet authorize_hmac rejects with no verified type
instead of returning the classified type. -/
theorem claim_C1_counterexample :
    concatenate (JDict.cons "hmac" (.jstr "k/") exTxEmpty)
      = .ok ("", "transaction")
    ∧ demoHmacHex "k" "" = "k/"
    ∧ authorize_hmac demoHmacHex "k"
        (JDict.cons "hmac" (.jstr "k/") exTxEmpty) none = .ok none
    ∧ (Except.ok (none : Option String) : Except PyError (Option String))
      ≠ .ok (some "transaction") := by
  refine ⟨rfl, rfl, rfl, ?_⟩
  intro h
  exact Option.noConfusion (Except.ok.inj h)

/-- Claim C6 (confirmed): when neither the payload body nor the query
parameters carry an hmac entry, authorize_hmac returns no verified type,
and it does so for every hash function and every secret key value -
including the unconfigured empty key, which would raise were it consulted -
so no keyed hash is computed and the key is not consulted. -/
theorem claim_C6_missing_signature (d : JDict) (qp : Option JDict)
    (hbody : d.lookup "hmac" = none)
    (hq : ∀ q, qp = some q → q.lookup "hmac" = none) :
    ∀ (hmacHex : String → String → String) (sk : String),
      authorize_hmac hmacHex sk d qp = .ok none := by
  intro hmacHex sk
  cases qp with
  | none => simp [authorize_hmac, extract_req_hmac, hbody, JVal.truthy]
  | some q =>
      cases hqn : q.isNil <;>
        simp [authorize_hmac, extract_req_hmac, hbody, hq q rfl,
          JVal.truthy, hqn]

/-- Concrete instance of the missing-signature claim: nonempty body and
query dicts, neither holding an hmac entry, with the unconfigured empty
secret key. -/
theorem claim_C6_missing_signature_witness :
    authorize_hmac demoHmacHex "" exSub
        (some (.cons "foo" (.jstr "1") .nil)) = .ok none :=
  claim_C6_missing_signature exSub (some (.cons "foo" (.jstr "1") .nil))
    (by rfl) (fun q h => by cases h; rfl) demoHmacHex ""

/-- Claim C4 (corrected): with a signature presented and the secret key
unconfigured, authorize_hmac raises a configuration failure before any
digest or comparison - the conclusion holds for every hash function - but
the exception class is the placeholder APIException of webhook.py line
211, not ConfigurationError as the claim states. -/
theorem claim_C4_unconfigured_key (d : JDict) (qp : Option JDict)
    (hext : (extract_req_hmac d qp).truthy = true) :
    ∀ (hmacHex : String → String → String),
      authorize_hmac hmacHex "" d qp
        = .error (.apiException "Paymob HMAC secret key not configured") := by
  intro hmacHex
  unfold authorize_hmac
  simp [hext, get_hmac_sk]

/-- Concrete instance of the corrected unconfigured-key claim. -/
theorem claim_C4_unconfigured_key_witness :
    authorize_hmac demoHmacHex ""
        (JDict.cons "hmac" (.jstr "x") exSub) none
      = .error (.apiException "Paymob HMAC secret key not configured") :=
  claim_C4_unconfigured_key (JDict.cons "hmac" (.jstr "x") exSub) none
    (by rfl) demoHmacHex

/-- Claim C4 counterexample: at this concrete payload with a presented
signature and an unconfigured key, the raised configuration failure is
APIException, a different constructor than the ConfigurationError class
the claim names. -/
theorem claim_C4_counterexample :
    authorize_hmac demoHmacHex ""
        (JDict.cons "hmac" (.jstr "x") exSub) none
      = .error (.apiException "Paymob HMAC secret key not configured")
    ∧ (Except.error
        (PyError.apiException "Paymob HMAC secret key not configured") :
          Except PyError (Option String))
      ≠ .error
        (.configurationError "Paymob HMAC secret key not configured") := by
  constructor
  · rfl
  · intro h
    exact absurd (Except.error.inj h) (by decide)

/-- Claim C10 (confirmed): a payload that presents a signature, is
classified transaction or token, and lacks a top-level obj key makes the
canonicalizer raise KeyError, and authorize_hmac propagates that KeyError
to its caller instead of returning a rejection value; the empty-string
default of the field lookups applies only below obj. -/
theorem claim_C10_missing_obj (hmacHex : String → String → String)
    (sk : String) (d : JDict) (qp : Option JDict) (sig ty : String)
    (hsk : sk ≠ "")
    (hhm : d.lookup "hmac" = some (.jstr sig)) (hsig : sig ≠ "")
    (hty : get_type_of_callback d = .jstr ty)
    (hkind : pyLower ty = "transaction" ∨ pyLower ty = "token")
    (hobj : d.lookup "obj" = none) :
    concatenate d = .error (.keyError "obj")
    ∧ authorize_hmac hmacHex sk d qp = .error (.keyError "obj") := by
  have hconc : concatenate d = .error (.keyError "obj") := by
    rcases hkind with h | h <;>
      simp [concatenate, hty, h, concatenate_transaction_callback,
        concatenate_token_callback, hobj]
  refine ⟨hconc, ?_⟩
  have hext := extract_of_body d qp sig hhm hsig
  unfold authorize_hmac
  rw [hext, hconc]
  simp [JVal.truthy, bne_iff_ne, hsig, get_hmac_sk, hsk]

/-- Concrete instance of the missing-obj claim: a token-typed payload with
a signature and no obj key. -/
theorem claim_C10_missing_obj_witness :
    concatenate (JDict.cons "hmac" (.jstr "x")
        (.cons "type" (.jstr "token") .nil)) = .error (.keyError "obj")
    ∧ authorize_hmac demoHmacHex "k"
        (JDict.cons "hmac" (.jstr "x") (.cons "type" (.jstr "token") .nil))
        none = .error (.keyError "obj") :=
  claim_C10_missing_obj demoHmacHex "k"
    (JDict.cons "hmac" (.jstr "x") (.cons "type" (.jstr "token") .nil))
    none "x" "token" (by decide) (by rfl) (by decide) (by rfl)
    (Or.inr (by rfl)) (by rfl)

theorem authorize_propagates (hmacHex : String → String → String)
    (sk : String) (d : JDict) (qp : Option JDict) (sig : String)
    (e : PyError) (hsk : sk ≠ "")
    (hhm : d.lookup "hmac" = some (.jstr sig)) (hsig : sig ≠ "")
    (hconc : concatenate d = .error e) :
    authorize_hmac hmacHex sk d qp = .error e := by
  have hext := extract_of_body d qp sig hhm hsig
  unfold authorize_hmac
  rw [hext, hconc]
  simp [JVal.truthy, bne_iff_ne, hsig, get_hmac_sk, hsk]

theorem concatenate_subscription_error (d : JDict) (ty : String)
    (e : PyError) (hty : get_type_of_callback d = .jstr ty)
    (hlow : pyLower ty = "subscription")
    (h : concatenate_subscription_callback d = .error e) :
    concatenate d = .error e := by
  simp [concatenate, hty, hlow, h]

/-- Claim C5 (corrected): for a subscription-classified payload reaching
canonicalization (signature presented, key configured, subscription_data
either absent or a dict sd), a missing trigger_type or a missing
subscription id raises ValidationError which propagates out of
authorize_hmac to the caller rather than yielding the silent rejection;
when both values are present and truthy the canonical string is
trigger_type, the literal for, and the id.  The correction forced by the
counterexample: presence alone does not suffice, a present but falsy value
(empty string, zero) also raises the ValidationError. -/
theorem claim_C5_subscription (hmacHex : String → String → String)
    (sk : String) (d sd : JDict) (qp : Option JDict) (sig ty : String)
    (t idv : JVal)
    (hsk : sk ≠ "")
    (hhm : d.lookup "hmac" = some (.jstr sig)) (hsig : sig ≠ "")
    (hty : get_type_of_callback d = .jstr ty)
    (hlow : pyLower ty = "subscription")
    (hsd : (d.lookup "subscription_data").getD (.jobj .nil) = .jobj sd) :
    (d.lookup "trigger_type" = none →
      concatenate_subscription_callback d = .error (.validationError
        "Cannot authorize callback: Not a valid subscription callback")
      ∧ authorize_hmac hmacHex sk d qp = .error (.validationError
        "Cannot authorize callback: Not a valid subscription callback"))
    ∧ (sd.lookup "id" = none →
      concatenate_subscription_callback d = .error (.validationError
        "Cannot authorize callback: Not a valid subscription callback")
      ∧ authorize_hmac hmacHex sk d qp = .error (.validationError
        "Cannot authorize callback: Not a valid subscription callback"))
    ∧ (d.lookup "trigger_type" = some t → t.truthy = true →
      sd.lookup "id" = some idv → idv.truthy = true →
      concatenate_subscription_callback d
        = .ok (pyStr t ++ "for" ++ pyStr idv)) := by
  refine ⟨?_, ?_, ?_⟩
  · intro h
    have hcs : concatenate_subscription_callback d = .error (.validationError
        "Cannot authorize callback: Not a valid subscription callback") := by
      simp [concatenate_subscription_callback, h, hsd, dictGet, JVal.truthy]
    exact ⟨hcs, authorize_propagates hmacHex sk d qp sig _ hsk hhm hsig
      (concatenate_subscription_error d ty _ hty hlow hcs)⟩
  · intro h
    have hcs : concatenate_subscription_callback d = .error (.validationError
        "Cannot authorize callback: Not a valid subscription callback") := by
      simp [concatenate_subscription_callback, h, hsd, dictGet, JVal.truthy]
    exact ⟨hcs, authorize_propagates hmacHex sk d qp sig _ hsk hhm hsig
      (concatenate_subscription_error d ty _ hty hlow hcs)⟩
  · intro h1 h2 h3 h4
    simp [concatenate_subscription_callback, h1, h2, h3, h4, hsd, dictGet]

/-- Concrete instance of the corrected subscription claim: a
subscription-typed payload with a signature and no trigger_type raises the
ValidationError through authorize_hmac. -/
theorem claim_C5_subscription_witness :
    concatenate_subscription_callback
        (JDict.cons "hmac" (.jstr "x")
          (.cons "type" (.jstr "subscription") .nil))
      = .error (.validationError
        "Cannot authorize callback: Not a valid subscription callback")
    ∧ authorize_hmac demoHmacHex "k"
        (JDict.cons "hmac" (.jstr "x")
          (.cons "type" (.jstr "subscription") .nil)) none
      = .error (.validationError
        "Cannot authorize callback: Not a valid subscription callback") :=
  (claim_C5_subscription demoHmacHex "k"
    (JDict.cons "hmac" (.jstr "x")
      (.cons "type" (.jstr "subscription") .nil)) .nil none "x"
    "subscription" .jnull .jnull (by decide) (by rfl) (by decide) (by rfl)
    (by rfl) (by rfl)).1 (by rfl)

/-- Claim C5 counterexample: a subscription payload whose trigger_type is
present (the empty string) and whose subscription id is present (5): the
claim as stated demands the canonical string for5, yet canonicalization
raises the ValidationError. -/
theorem claim_C5_counterexample :
    exSubFalsy.lookup "trigger_type" = some (.jstr "")
    ∧ (JDict.cons "id" (.jnum 5) .nil).lookup "id" = some (.jnum 5)
    ∧ concatenate_subscription_callback exSubFalsy
        = .error (.validationError
          "Cannot authorize callback: Not a valid subscription callback")
    ∧ concatenate_subscription_callback exSubFalsy ≠ .ok "for5" := by
  refine ⟨rfl, rfl, rfl, ?_⟩
  intro h
  exact Except.noConfusion h

/-- Claim C2 (corrected): for a transaction payload with an obj dict, the
canonical string is the join, with no separator and in exactly the listed
order, of the rendered values of the twenty fields; booleans render
lowercase and ordinary strings render as themselves, but - the correction
forced by the counterexample - the rendering inspects the Python string
form of the value, so the string values True, False and None also render
as true, false and null rather than via their natural string form. -/
theorem claim_C2_transaction_canonical (d o : JDict) (s : String)
    (hobj : d.lookup "obj" = some (.jobj o)) :
    concatenate_transaction_callback d
      = Except.map String.join (concat_fields (.jobj o)
          ["amount_cents", "created_at", "currency", "error_occured",
           "has_parent_transaction", "id", "integration_id", "is_3d_secure",
           "is_auth", "is_capture", "is_refunded", "is_standalone_payment",
           "is_voided", "order.id", "owner", "pending", "source_data.pan",
           "source_data.sub_type", "source_data.type", "success"])
    ∧ render (.jbool true) = "true"
    ∧ render (.jbool false) = "false"
    ∧ (s ≠ "True" → s ≠ "False" → s ≠ "None" → render (.jstr s) = s)
    ∧ render (.jstr "True") = "true"
    ∧ render (.jstr "None") = "null" := by
  refine ⟨?_, by rfl, by rfl, ?_, by rfl, by rfl⟩
  · cases h : concat_fields (.jobj o) transactionFields <;>
      simp [concatenate_transaction_callback, hobj, Except.map,
        transactionFields] at h ⊢ <;> simp [h]
  · intro h1 h2 h3
    simp [render, pyStr, h1, h2, h3]

/-- Concrete instance of the corrected transaction canonicalization
claim. -/
theorem claim_C2_transaction_canonical_witness :
    concatenate_transaction_callback
        (JDict.cons "obj"
          (.jobj (.cons "success" (.jbool true)
            (.cons "amount_cents" (.jnum 100) .nil))) .nil)
      = Except.map String.join (concat_fields
          (.jobj (.cons "success" (.jbool true)
            (.cons "amount_cents" (.jnum 100) .nil)))
          ["amount_cents", "created_at", "currency", "error_occured",
           "has_parent_transaction", "id", "integration_id", "is_3d_secure",
           "is_auth", "is_capture", "is_refunded", "is_standalone_payment",
           "is_voided", "order.id", "owner", "pending", "source_data.pan",
           "source_data.sub_type", "source_data.type", "success"])
    ∧ render (.jstr "EGP") = "EGP" :=
  ⟨(claim_C2_transaction_canonical
      (JDict.cons "obj"
        (.jobj (.cons "success" (.jbool true)
          (.cons "amount_cents" (.jnum 100) .nil))) .nil)
      (.cons "success" (.jbool true)
        (.cons "amount_cents" (.jnum 100) .nil)) "EGP" (by rfl)).1,
   (claim_C2_transaction_canonical
      (JDict.cons "obj"
        (.jobj (.cons "success" (.jbool true)
          (.cons "amount_cents" (.jnum 100) .nil))) .nil)
      (.cons "success" (.jbool true)
        (.cons "amount_cents" (.jnum 100) .nil)) "EGP" (by rfl)).2.2.2.1
     (by decide) (by decide) (by decide)⟩

/-- Claim C2 counterexample: a transaction payload whose currency field is
the Python string True; the claim says a non-boolean present value renders
via its natural string form, which would put True in the canonical string,
but the code renders it lowercase, giving the canonical string true. -/
theorem claim_C2_counterexample :
    exTxQuirk.lookup "obj"
      = some (.jobj (.cons "currency" (.jstr "True") .nil))
    ∧ concatenate exTxQuirk = .ok ("true", "transaction")
    ∧ ("true" : String) ≠ "True" :=
  ⟨rfl, rfl, by decide⟩

/-- Claim C3 (corrected): in the transaction and token canonicalizers a
field whose looked-up value is present and null renders the literal string
null at its position, but - the correction forced by the counterexample -
a field that is absent (any missing path segment falls back to the
defaults of the two-level get) renders the empty string, not null. -/
theorem claim_C3_null_rendering (d o o2 : JDict) (f k1 k2 : String)
    (hobj : d.lookup "obj" = some (.jobj o)) :
    concatenate_token_callback d
      = Except.map String.join (concat_fields (.jobj o)
          ["card_subtype", "created_at", "email", "id", "masked_pan",
           "merchant_id", "order_id", "token"])
    ∧ (containsDot f = false → o.lookup f = none →
        renderField (.jobj o) f = .ok "")
    ∧ (containsDot f = false → o.lookup f = some .jnull →
        renderField (.jobj o) f = .ok "null")
    ∧ (splitDot f = [k1, k2] → containsDot f = true → o.lookup k1 = none →
        renderField (.jobj o) f = .ok "")
    ∧ (splitDot f = [k1, k2] → containsDot f = true →
        o.lookup k1 = some (.jobj o2) → o2.lookup k2 = none →
        renderField (.jobj o) f = .ok "")
    ∧ (splitDot f = [k1, k2] → containsDot f = true →
        o.lookup k1 = some (.jobj o2) → o2.lookup k2 = some .jnull →
        renderField (.jobj o) f = .ok "null") := by
  refine ⟨?_, ?_, ?_, ?_, ?_, ?_⟩
  · cases h : concat_fields (.jobj o) tokenFields <;>
      simp [concatenate_token_callback, hobj, Except.map,
        tokenFields] at h ⊢ <;> simp [h]
  · intro h1 h2
    simp [renderField, lookupField, h1, h2, dictGet, render, pyStr]
  · intro h1 h2
    simp [renderField, lookupField, h1, h2, dictGet, render, pyStr]
  · intro h1 h2 h3
    simp [renderField, lookupField, h1, h2, h3, dictGet, render, pyStr,
      JDict.lookup]
  · intro h1 h2 h3 h4
    simp [renderField, lookupField, h1, h2, h3, h4, dictGet, render, pyStr]
  · intro h1 h2 h3 h4
    simp [renderField, lookupField, h1, h2, h3, h4, dictGet, render, pyStr]

/-- Concrete instances of the corrected null-rendering claim: an absent
plain field, a present null plain field, an absent dotted path, and a
present null behind a dotted path. -/
theorem claim_C3_null_rendering_witness :
    renderField (.jobj .nil) "owner" = .ok ""
    ∧ renderField (.jobj (.cons "owner" .jnull .nil)) "owner" = .ok "null"
    ∧ renderField (.jobj .nil) "order.id" = .ok ""
    ∧ renderField
        (.jobj (.cons "order" (.jobj (.cons "id" .jnull .nil)) .nil))
        "order.id" = .ok "null" :=
  ⟨(claim_C3_null_rendering (JDict.cons "obj" (.jobj .nil) .nil) .nil .nil
      "owner" "" "" (by rfl)).2.1 (by rfl) (by rfl),
   (claim_C3_null_rendering
      (JDict.cons "obj" (.jobj (.cons "owner" .jnull .nil)) .nil)
      (.cons "owner" .jnull .nil) .nil "owner" "" "" (by rfl)).2.2.1
     (by rfl) (by rfl),
   (claim_C3_null_rendering (JDict.cons "obj" (.jobj .nil) .nil) .nil .nil
      "order.id" "order" "id" (by rfl)).2.2.2.1 (by rfl) (by rfl) (by rfl),
   (claim_C3_null_rendering
      (JDict.cons "obj"
        (.jobj (.cons "order" (.jobj (.cons "id" .jnull .nil)) .nil)) .nil)
      (.cons "order" (.jobj (.cons "id" .jnull .nil)) .nil)
      (.cons "id" .jnull .nil) "order.id" "order" "id" (by rfl)).2.2.2.2.2
     (by rfl) (by rfl) (by rfl) (by rfl)⟩

/-- Claim C3 counterexample: a transaction payload whose obj dict is empty,
so every field of the fixed list is absent: the claim as stated demands
the literal null at all twenty positions, but the canonical string is
empty. -/
theorem claim_C3_counterexample :
    concatenate exTxEmpty = .ok ("", "transaction")
    ∧ ("" : String) ≠ String.join (List.replicate 20 "null") :=
  ⟨rfl, by decide⟩

theorem lookup_eraseKey (k : String) (st : MemCache) :
    (eraseKey k st).lookup k = none := by
  induction st with
  | nil => rfl
  | cons e tl ih =>
      by_cases h : e.1 = k
      · simpa [eraseKey, List.filter_cons, h] using ih
      · have hk : (k == e.1) = false := by
          simp [Ne.symm h]
        simpa [eraseKey, List.filter_cons, h, bne_iff_ne, List.lookup, hk]
          using ih

theorem request_token_shape (tr : TransportResult) :
    (∃ t, request_token tr = .ok t)
    ∨ ∃ m, request_token tr
        = .error (.authenticationError ("Token request failed: " ++ m)) := by
  cases tr with
  | failure m => exact .inr ⟨m, rfl⟩
  | success o =>
      cases o with
      | none => exact .inr ⟨"No token received from Paymob API", rfl⟩
      | some t =>
          by_cases ht : t = ""
          · exact .inr ⟨"No token received from Paymob API",
              by simp [request_token, ht]⟩
          · exact .inl ⟨t, by simp [request_token, ht]⟩

theorem refresh_path_rs_indep {σ ε : Type} (B : CacheBackend σ ε)
    (now : Nat) (tr : TransportResult) (ttl : Nat) (st : σ)
    (rs rs' : RefreshState) :
    (refresh_token_path B now tr ttl st rs).1
      = (refresh_token_path B now tr ttl st rs').1
    ∧ (refresh_token_path B now tr ttl st rs).2.1
      = (refresh_token_path B now tr ttl st rs').2.1 := by
  cases h : request_token tr <;> simp [refresh_token_path, h]

theorem refresh_path_result {σ ε : Type} (B : CacheBackend σ ε)
    (now : Nat) (tr : TransportResult) (ttl : Nat) (st : σ)
    (rs : RefreshState) :
    (refresh_token_path B now tr ttl st rs).1 = request_token tr := by
  cases h : request_token tr <;> simp [refresh_token_path, h]

theorem get_token_result {σ ε : Type} (B : CacheBackend σ ε) (now : Nat)
    (f : Bool) (tr : TransportResult) (ttl : Nat) (st : σ)
    (rs : RefreshState) :
    (∃ t, (get_token B now f tr ttl st rs).1 = .ok t)
    ∨ (get_token B now f tr ttl st rs).1 = request_token tr := by
  rcases hc : (if f then ((none : Option String), st)
      else get_cached_token B now st) with ⟨c, st1⟩
  cases c with
  | some t =>
      by_cases ht : t = ""
      · right
        simp [get_token, hc, ht, refresh_path_result]
      · left
        exact ⟨t, by simp [get_token, hc, ht]⟩
  | none =>
      right
      simp [get_token, hc, refresh_path_result]

/-- Claim C8 (confirmed): over every cache backend with arbitrarily raised
exceptions, get_token either returns a token or fails with exactly an
AuthenticationError from the token-request path wrapping the upstream text
behind the fixed prefix; a raising backend get is treated as a miss, with
the request outcome surfacing unchanged; a raising backend set does not
mask a successful request; and invalidate_token returns normally whatever
the backend delete does. -/
theorem claim_C8_cache_error_tolerance {σ ε : Type} (B : CacheBackend σ ε)
    (now : Nat) (f : Bool) (tr : TransportResult) (ttl : Nat) (st : σ)
    (rs : RefreshState) :
    ((∃ t, (get_token B now f tr ttl st rs).1 = .ok t)
      ∨ ∃ m, (get_token B now f tr ttl st rs).1
          = .error (.authenticationError ("Token request failed: " ++ m)))
    ∧ (∀ e, (B.get now st CACHE_KEY).1 = .error e →
        (get_token B now false tr ttl st rs).1 = request_token tr)
    ∧ (∀ t, request_token tr = .ok t →
        (get_token B now true tr ttl st rs).1 = .ok t)
    ∧ (invalidate_token B st).1 = .ok () := by
  refine ⟨?_, ?_, ?_, ?_⟩
  · rcases get_token_result B now f tr ttl st rs with ⟨t, h⟩ | h
    · exact .inl ⟨t, h⟩
    · rcases request_token_shape tr with ⟨t, hr⟩ | ⟨m, hr⟩
      · exact .inl ⟨t, by rw [h, hr]⟩
      · exact .inr ⟨m, by rw [h, hr]⟩
  · intro e he
    rcases h : B.get now st CACHE_KEY with ⟨r, st'⟩
    rw [h] at he
    simp only at he
    subst he
    have hgc : get_cached_token B now st = (none, st') := by
      simp [get_cached_token, h]
    simp [get_token, hgc, refresh_path_result]
  · intro t ht
    simp [get_token, refresh_path_result, ht]
  · rcases h : B.delete st CACHE_KEY with ⟨r, st'⟩
    cases r <;> simp [invalidate_token, h]

/-- Concrete instance of the cache-error tolerance claim, on a backend
every operation of which raises. -/
theorem claim_C8_cache_error_tolerance_witness :
    (get_token failBackend 0 false (.failure "boom") 10 ()
        initRefreshState).1 = request_token (.failure "boom")
    ∧ (get_token failBackend 0 true (.success (some "tok")) 10 ()
        initRefreshState).1 = .ok "tok"
    ∧ (invalidate_token failBackend ()).1 = .ok () :=
  ⟨(claim_C8_cache_error_tolerance failBackend 0 false (.failure "boom")
      10 () initRefreshState).2.1 "backend down" (by rfl),
   (claim_C8_cache_error_tolerance failBackend 0 true
      (.success (some "tok")) 10 () initRefreshState).2.2.1 "tok" (by rfl),
   (claim_C8_cache_error_tolerance failBackend 0 false (.failure "boom")
      10 () initRefreshState).2.2.2⟩

/-- Claim C7 (confirmed): a cache holding a token under the fixed key past
its expiry: the cache read is a miss and evicts the entry, get_token
without force_refresh issues exactly one transport call, stores the new
token under the fixed key with expiry now plus ttl, and returns it. -/
theorem claim_C7_expired_refresh (st : MemCache) (rs : RefreshState)
    (now exp ttl : Nat) (tok newTok : String)
    (hlk : st.lookup CACHE_KEY = some (tok, exp))
    (hexp : exp < now) (hnew : newTok ≠ "") :
    memory_cache_get now st CACHE_KEY = (none, eraseKey CACHE_KEY st)
    ∧ (eraseKey CACHE_KEY st).lookup CACHE_KEY = none
    ∧ (get_token memoryBackend now false (.success (some newTok)) ttl
        st rs).1 = .ok newTok
    ∧ (get_token memoryBackend now false (.success (some newTok)) ttl
        st rs).2.2.2 = 1
    ∧ ((get_token memoryBackend now false (.success (some newTok)) ttl
        st rs).2.1).lookup CACHE_KEY = some (newTok, now + ttl) := by
  have hmg : memory_cache_get now st CACHE_KEY
      = (none, eraseKey CACHE_KEY st) := by
    simp [memory_cache_get, hlk, hexp]
  have hgt : get_token memoryBackend now false (.success (some newTok)) ttl
      st rs
      = (.ok newTok,
         memory_cache_set now (eraseKey CACHE_KEY st) CACHE_KEY newTok ttl,
         (track_refresh_attempts now rs).1, 1) := by
    simp [get_token, get_cached_token, memoryBackend, hmg,
      refresh_token_path, request_token, hnew, cache_token]
  refine ⟨hmg, lookup_eraseKey _ _, ?_, ?_, ?_⟩ <;>
    simp [hgt, memory_cache_set, List.lookup]

/-- Concrete instance of the expired-token refresh claim. -/
theorem claim_C7_expired_refresh_witness :
    memory_cache_get 10 [("paymob:auth_token", "old", 5)] CACHE_KEY
      = (none, eraseKey CACHE_KEY [("paymob:auth_token", "old", 5)])
    ∧ (eraseKey CACHE_KEY [("paymob:auth_token", "old", 5)]).lookup
        CACHE_KEY = none
    ∧ (get_token memoryBackend 10 false (.success (some "new")) 100
        [("paymob:auth_token", "old", 5)] initRefreshState).1 = .ok "new"
    ∧ (get_token memoryBackend 10 false (.success (some "new")) 100
        [("paymob:auth_token", "old", 5)] initRefreshState).2.2.2 = 1
    ∧ ((get_token memoryBackend 10 false (.success (some "new")) 100
        [("paymob:auth_token", "old", 5)] initRefreshState).2.1).lookup
        CACHE_KEY = some ("new", 110) :=
  claim_C7_expired_refresh [("paymob:auth_token", "old", 5)]
    initRefreshState 10 5 100 "old" "new" (by rfl) (by decide) (by decide)

/-- Claim C9 (confirmed): the tracked refresh state resets to a fresh
count when the wall-clock hour bucket differs from the stored one and
increments within a bucket, the stored bucket becomes the current one, and
the warning fires exactly when the post-increment count exceeds three;
four refreshes inside one bucket fire the warning on the fourth while the
same four split two plus two across adjacent buckets never fire it; and
the counter state influences neither the result nor the cache state of
get_token, so it can never fail a request. -/
theorem claim_C9_refresh_counter :
    (∀ (now : Nat) (rs : RefreshState),
      ((track_refresh_attempts now rs).1).refresh_attempts
        = (if ((now / 3600 : Nat) : Int) = rs.last_refresh_hour
            then rs.refresh_attempts + 1 else 1)
      ∧ ((track_refresh_attempts now rs).1).last_refresh_hour
        = ((now / 3600 : Nat) : Int)
      ∧ ((track_refresh_attempts now rs).2 = true
          ↔ 3 < ((track_refresh_attempts now rs).1).refresh_attempts))
    ∧ trackWarnSeq initRefreshState [0, 600, 1200, 1800]
        = [false, false, false, true]
    ∧ trackWarnSeq initRefreshState [0, 600, 3600, 4200]
        = [false, false, false, false]
    ∧ (∀ {σ ε : Type} (B : CacheBackend σ ε) (now : Nat) (f : Bool)
        (tr : TransportResult) (ttl : Nat) (st : σ) (rs rs' : RefreshState),
        (get_token B now f tr ttl st rs).1
          = (get_token B now f tr ttl st rs').1
        ∧ (get_token B now f tr ttl st rs).2.1
          = (get_token B now f tr ttl st rs').2.1) := by
  refine ⟨?_, by rfl, by rfl, ?_⟩
  · intro now rs
    by_cases h : ((now / 3600 : Nat) : Int) = rs.last_refresh_hour
    · simp [track_refresh_attempts, h]
    · push_cast at h
      simp [track_refresh_attempts, h]
  · intro σ ε B now f tr ttl st rs rs'
    rcases hc : (if f then ((none : Option String), st)
        else get_cached_token B now st) with ⟨c, st1⟩
    cases c with
    | some t =>
        by_cases ht : t = ""
        · simp [get_token, hc, ht, refresh_path_rs_indep B now tr ttl st1
            rs rs']
        · simp [get_token, hc, ht]
    | none =>
        simp [get_token, hc, refresh_path_rs_indep B now tr ttl st1 rs rs']
